import Mathlib

/-!
Verification of the fd-mcp server (src/fd_mcp/server.py) and the benchmark
file generator (src/benchmark/generate_files.py).

The Python string primitives used by the server (str.strip, str.split on a
newline, str.join, str.replace) are embedded as structural Lean functions on
the character list underlying a String, so that every definition is
executable and every concrete instance can be settled by kernel evaluation.
External processes are modelled by an oracle environment: each invocation of
subprocess.run is a lookup in a function from the command line to an outcome
(captured stdout, captured stderr and return code, or a timeout, or an
arbitrary raised exception).  An argv element is an Option String because the
Python code can place None (a missing binary) inside a command list.
-/

/-- Python str whitespace for the purposes of str.strip. -/
def isPyWhitespace (c : Char) : Bool :=
  c = ' ' || c = '\t' || c = '\n' || c = '\r' || c = '\x0b' || c = '\x0c'

/-- Python s.strip on the underlying character list. -/
def pyStripList (l : List Char) : List Char :=
  ((l.dropWhile isPyWhitespace).reverse.dropWhile isPyWhitespace).reverse

/-- Python s.strip. -/
def pyStrip (s : String) : String :=
  String.mk (pyStripList s.data)

/-- Helper for pySplitNL: accumulates the current line in reverse. -/
def pySplitAux : List Char → List Char → List String
  | [], acc => [String.mk acc.reverse]
  | c :: rest, acc =>
    if c = '\n' then String.mk acc.reverse :: pySplitAux rest []
    else pySplitAux rest (c :: acc)

/-- Python s.split on a single newline separator. -/
def pySplitNL (s : String) : List String :=
  pySplitAux s.data []

/-- Python "\n".join. -/
def joinNL : List String → String
  | [] => ""
  | [s] => s
  | s :: rest => s ++ "\n" ++ joinNL rest

/-- Python "\n\n".join. -/
def joinNN : List String → String
  | [] => ""
  | [s] => s
  | s :: rest => s ++ "\n\n" ++ joinNN rest

theorem str_mk_append (a b : List Char) :
    (String.mk a) ++ (String.mk b) = String.mk (a ++ b) := rfl

theorem str_append_empty (s : String) : s ++ "" = s := by
  cases s with
  | mk l => show String.mk (l ++ []) = String.mk l; rw [List.append_nil]

theorem str_empty_append (s : String) : "" ++ s = s := by
  cases s with
  | mk l => rfl

theorem str_ne_empty_of_data_ne_nil (s : String) (h : s.data ≠ []) : s ≠ "" := by
  intro hc
  apply h
  rw [hc]

theorem str_append_ne_empty_right (s t : String) (h : t ≠ "") : s ++ t ≠ "" := by
  intro hc
  apply h
  cases s with
  | mk a =>
    cases t with
    | mk b =>
      have hab : a ++ b = [] := congrArg String.data hc
      have hb : b = [] := (List.append_eq_nil.mp hab).2
      rw [hb]

theorem str_append_ne_empty_left (s t : String) (h : s ≠ "") : s ++ t ≠ "" := by
  intro hc
  apply h
  cases s with
  | mk a =>
    cases t with
    | mk b =>
      have hab : a ++ b = [] := congrArg String.data hc
      have ha : a = [] := (List.append_eq_nil.mp hab).1
      rw [ha]

theorem pySplitAux_ne_nil (l acc : List Char) : pySplitAux l acc ≠ [] := by
  induction l generalizing acc with
  | nil => simp [pySplitAux]
  | cons c rest ih =>
    simp only [pySplitAux]
    split
    · simp
    · exact ih (c :: acc)

theorem joinNL_cons_cons (s t : String) (rest : List String) :
    joinNL (s :: t :: rest) = s ++ "\n" ++ joinNL (t :: rest) := rfl

theorem joinNL_pySplitAux (l acc : List Char) :
    joinNL (pySplitAux l acc) = String.mk (acc.reverse ++ l) := by
  induction l generalizing acc with
  | nil => simp [pySplitAux, joinNL]
  | cons c rest ih =>
    simp only [pySplitAux]
    by_cases hc : c = '\n'
    · rw [if_pos hc]
      obtain ⟨x, xs, hxs⟩ : ∃ x xs, pySplitAux rest [] = x :: xs := by
        cases hsplit : pySplitAux rest [] with
        | nil => exact absurd hsplit (pySplitAux_ne_nil rest [])
        | cons x xs => exact ⟨x, xs, rfl⟩
      rw [hxs, joinNL_cons_cons, ← hxs, ih]
      show String.mk acc.reverse ++ String.mk ['\n'] ++ String.mk ([].reverse ++ rest) = _
      rw [str_mk_append, str_mk_append]
      simp [hc]
    · rw [if_neg hc, ih]
      simp

/-- Round trip: joining the split of a string on newlines gives the string back. -/
theorem joinNL_pySplitNL (s : String) : joinNL (pySplitNL s) = s := by
  cases s with
  | mk l =>
    show joinNL (pySplitAux l []) = String.mk l
    rw [joinNL_pySplitAux]
    rfl

/-- Outcome of one subprocess.run call: captured output, or TimeoutExpired
(carrying the text of the exception), or any other raised exception. -/
inductive ProcOutcome where
  | ok (stdout stderr : String) (returncode : Int)
  | timeout (msg : String)
  | exn (msg : String)

/-- An argv element: the Python code can place None inside a command list. -/
abbrev Argv := List (Option String)

/-- Oracle for external processes: run executes an argv list, shell executes
a shell command string (subprocess.run with shell=True). -/
structure ProcEnv where
  run : Argv → ProcOutcome
  shell : String → ProcOutcome

/-- Environment whose every invocation yields the same outcome. -/
def envConst (o : ProcOutcome) : ProcEnv :=
  ⟨fun _ => o, fun _ => o⟩

/-- run_fd from src/fd_mcp/server.py: execute the fd command and format the
captured output (truncation to max_results lines, warnings suffix,
no-matches fallback, error texts for timeout and other exceptions). -/
def run_fd (env : ProcEnv) (cmd : Argv) (max_results : Nat) : String :=
  match env.run cmd with
  | .timeout _ => "Error: Command timed out after 30 seconds"
  | .exn e => "Error: " ++ e
  | .ok stdout stderr _ =>
    let lines := if pyStrip stdout = "" then [] else pySplitNL (pyStrip stdout)
    let output :=
      if lines.length > max_results then
        joinNL (lines.take max_results) ++
          ("\n\n... and " ++ toString (lines.length - max_results) ++ " more results (truncated)")
      else
        joinNL lines
    let output2 := if stderr = "" then output else output ++ ("\n\nWarnings: " ++ stderr)
    if output2 = "" then "No matches found." else output2

/-- The suffix run_fd appends when the command produced diagnostics. -/
def warningsSuffix (stderr : String) : String :=
  if stderr = "" then "" else "\n\nWarnings: " ++ stderr

/-- C2: for a captured stdout whose stripped content splits into more than
max_results lines, run_fd returns the first max_results lines joined by
newlines followed by the omitted-count suffix; when the line count is at most
max_results all lines are returned with no suffix; any non-empty stderr is
appended in both cases. -/
theorem run_fd_truncation (env : ProcEnv) (cmd : Argv) (maxr : Nat)
    (stdout stderr : String) (rc : Int)
    (h : env.run cmd = .ok stdout stderr rc) :
    ((pySplitNL (pyStrip stdout)).length > maxr → pyStrip stdout ≠ "" →
      run_fd env cmd maxr =
        (joinNL ((pySplitNL (pyStrip stdout)).take maxr) ++
          ("\n\n... and " ++ toString ((pySplitNL (pyStrip stdout)).length - maxr) ++
            " more results (truncated)")) ++ warningsSuffix stderr)
    ∧ ((pySplitNL (pyStrip stdout)).length ≤ maxr → pyStrip stdout ≠ "" →
      run_fd env cmd maxr = joinNL (pySplitNL (pyStrip stdout)) ++ warningsSuffix stderr) := by
  constructor
  · intro hlen hne
    unfold run_fd
    rw [h]
    simp only [if_neg hne, if_pos hlen]
    have houtne : joinNL ((pySplitNL (pyStrip stdout)).take maxr) ++
        ("\n\n... and " ++ toString ((pySplitNL (pyStrip stdout)).length - maxr) ++
          " more results (truncated)") ≠ "" := by
      apply str_append_ne_empty_right
      apply str_append_ne_empty_left
      apply str_append_ne_empty_left
      intro hc
      exact absurd (congrArg String.data hc) (by decide)
    by_cases hst : stderr = ""
    · rw [if_pos hst, if_neg houtne, hst]
      unfold warningsSuffix
      rw [if_pos rfl, str_append_empty]
    · rw [if_neg hst]
      have : joinNL ((pySplitNL (pyStrip stdout)).take maxr) ++
          ("\n\n... and " ++ toString ((pySplitNL (pyStrip stdout)).length - maxr) ++
            " more results (truncated)") ++ ("\n\nWarnings: " ++ stderr) ≠ "" := by
        apply str_append_ne_empty_right
        apply str_append_ne_empty_left
        intro hc
        exact absurd (congrArg String.data hc) (by decide)
      rw [if_neg this]
      unfold warningsSuffix
      rw [if_neg hst]
  · intro hlen hne
    unfold run_fd
    rw [h]
    simp only [if_neg hne, if_neg (not_lt.mpr hlen)]
    have hjoin : joinNL (pySplitNL (pyStrip stdout)) = pyStrip stdout := joinNL_pySplitNL _
    have houtne : joinNL (pySplitNL (pyStrip stdout)) ≠ "" := by
      rw [hjoin]; exact hne
    by_cases hst : stderr = ""
    · rw [if_pos hst, if_neg houtne, hst]
      unfold warningsSuffix
      rw [if_pos rfl, str_append_empty]
    · rw [if_neg hst]
      have : joinNL (pySplitNL (pyStrip stdout)) ++ ("\n\nWarnings: " ++ stderr) ≠ "" := by
        exact str_append_ne_empty_left _ _ houtne
      rw [if_neg this]
      unfold warningsSuffix
      rw [if_neg hst]

/-- C2 witness: both branches of run_fd_truncation evaluated at concrete
captured output. -/
theorem run_fd_truncation_witness :
    run_fd (envConst (.ok "a\nb\nc" "oops" 0)) [] 2 =
      "a\nb\n\n... and 1 more results (truncated)\n\nWarnings: oops"
    ∧ run_fd (envConst (.ok " x\ny " "" 0)) [] 5 = "x\ny" := by
  constructor
  · have h := (run_fd_truncation (envConst (.ok "a\nb\nc" "oops" 0)) [] 2
      "a\nb\nc" "oops" 0 rfl).1 (by decide) (by decide)
    rw [h]
    decide
  · have h := (run_fd_truncation (envConst (.ok " x\ny " "" 0)) [] 5
      " x\ny " "" 0 rfl).2 (by decide) (by decide)
    rw [h]
    decide

/-- C10 counterexample: run_fd also returns the literal text
"No matches found." when the stripped stdout itself is exactly that text, so
the fixed text is not returned only on empty output. -/
theorem run_fd_no_matches_counterexample :
    run_fd (envConst (.ok "No matches found." "" 0)) [] 100 = "No matches found."
    ∧ pyStrip "No matches found." ≠ "" := by
  constructor
  · decide
  · decide

/-- C10 amended: when stdout strips to empty and stderr is empty, run_fd
returns the fixed text "No matches found."; when stdout strips to empty and
stderr is non-empty, the result is solely the warnings suffix built from
stderr. -/
theorem run_fd_no_matches_amended (env : ProcEnv) (cmd : Argv) (maxr : Nat)
    (stdout stderr : String) (rc : Int)
    (h : env.run cmd = .ok stdout stderr rc) :
    (pyStrip stdout = "" → stderr = "" → run_fd env cmd maxr = "No matches found.")
    ∧ (pyStrip stdout = "" → stderr ≠ "" →
      run_fd env cmd maxr = "\n\nWarnings: " ++ stderr) := by
  constructor
  · intro hout hst
    unfold run_fd
    rw [h]
    simp only [if_pos hout, if_pos hst]
    rw [if_neg (by simp : ¬(([] : List String).length > maxr))]
    show (if joinNL [] = "" then "No matches found." else joinNL []) = _
    rw [if_pos (show joinNL [] = "" from rfl)]
  · intro hout hst
    unfold run_fd
    rw [h]
    simp only [if_pos hout, if_neg hst]
    rw [if_neg (by simp : ¬(([] : List String).length > maxr))]
    show (if joinNL [] ++ ("\n\nWarnings: " ++ stderr) = "" then "No matches found."
      else joinNL [] ++ ("\n\nWarnings: " ++ stderr)) = _
    have hne : joinNL [] ++ ("\n\nWarnings: " ++ stderr) ≠ "" := by
      apply str_append_ne_empty_right
      apply str_append_ne_empty_left
      intro hc
      exact absurd (congrArg String.data hc) (by decide)
    rw [if_neg hne]
    show "" ++ ("\n\nWarnings: " ++ stderr) = _
    rw [str_empty_append]

/-- C10 witness: the amended statement evaluated on concrete outputs. -/
theorem run_fd_no_matches_amended_witness :
    run_fd (envConst (.ok "  " "" 0)) [] 100 = "No matches found."
    ∧ run_fd (envConst (.ok "" "warn" 0)) [] 100 = "\n\nWarnings: warn" := by
  constructor
  · exact (run_fd_no_matches_amended (envConst (.ok "  " "" 0)) [] 100
      "  " "" 0 rfl).1 (by decide) rfl
  · have h := (run_fd_no_matches_amended (envConst (.ok "" "warn" 0)) [] 100
      "" "warn" 0 rfl).2 (by decide) (by decide)
    rw [h]
    decide

/-- build_fd_command from src/fd_mcp/server.py.  The RuntimeError raised when
FD_CMD is None is modelled as Except.error carrying the exception text. -/
def build_fd_command (FD_CMD : Option String) (pattern : String) (path : String)
    (file_type : Option String) (extension : Option String)
    (hidden : Bool) (no_ignore : Bool) (max_depth : Option Int)
    (exclude : Option String) (case_sensitive : Bool) (absolute_path : Bool) :
    Except String (List String) :=
  match FD_CMD with
  | none => .error "fd/fdfind not found in PATH"
  | some fd =>
    let cmd := [fd]
    let cmd := if hidden then cmd ++ ["--hidden"] else cmd
    let cmd := if no_ignore then cmd ++ ["--no-ignore"] else cmd
    let cmd := if case_sensitive then cmd ++ ["--case-sensitive"] else cmd
    let cmd := if absolute_path then cmd ++ ["--absolute-path"] else cmd
    let cmd := match file_type with
      | some t => if t = "" then cmd else cmd ++ ["--type", t]
      | none => cmd
    let cmd := match extension with
      | some e => if e = "" then cmd else cmd ++ ["--extension", e]
      | none => cmd
    let cmd := match max_depth with
      | some d => cmd ++ ["--max-depth", toString d]
      | none => cmd
    let cmd := match exclude with
      | some g => if g = "" then cmd else cmd ++ ["--exclude", g]
      | none => cmd
    let cmd := if pattern = "" then cmd else cmd ++ [pattern]
    .ok (cmd ++ [path])

/-- Python truthiness of an optional string argument. -/
def pyTruthy : Option String → Bool
  | none => false
  | some t => t != ""

/-- Flag segment contributed by a boolean option. -/
def boolSeg (b : Bool) (flag : String) : List String :=
  if b then [flag] else []

/-- Flag segment contributed by an optional string-valued option. -/
def optSeg (o : Option String) (flag : String) : List String :=
  match o with
  | some t => if t = "" then [] else [flag, t]
  | none => []

/-- Flag segment contributed by the optional max-depth option. -/
def depthSeg (o : Option Int) : List String :=
  match o with
  | some d => ["--max-depth", toString d]
  | none => []

/-- Segment contributed by the pattern argument. -/
def patSeg (pattern : String) : List String :=
  if pattern = "" then [] else [pattern]

theorem ite_extend (p : Prop) [Decidable p] (cmd s : List String) :
    (if p then cmd ++ s else cmd) = cmd ++ (if p then s else []) := by
  split <;> simp

theorem ite_extend_flip (p : Prop) [Decidable p] (cmd s : List String) :
    (if p then cmd else cmd ++ s) = cmd ++ (if p then [] else s) := by
  split <;> simp

theorem opt_flag_extend (o : Option String) (cmd : List String) (flag : String) :
    (match o with
      | some t => if t = "" then cmd else cmd ++ [flag, t]
      | none => cmd)
    = cmd ++ optSeg o flag := by
  cases o with
  | none => simp [optSeg]
  | some t =>
    by_cases h : t = "" <;> simp [optSeg, h]

theorem opt_depth_extend (o : Option Int) (cmd : List String) :
    (match o with
      | some d => cmd ++ ["--max-depth", toString d]
      | none => cmd)
    = cmd ++ depthSeg o := by
  cases o <;> simp [depthSeg]

/-- Normal form of build_fd_command on a present binary. -/
theorem build_fd_command_some (fd pattern path : String)
    (file_type extension : Option String) (hidden no_ignore : Bool)
    (max_depth : Option Int) (exclude : Option String)
    (case_sensitive absolute_path : Bool) :
    build_fd_command (some fd) pattern path file_type extension hidden no_ignore
        max_depth exclude case_sensitive absolute_path =
      .ok ([fd] ++ boolSeg hidden "--hidden" ++ boolSeg no_ignore "--no-ignore"
        ++ boolSeg case_sensitive "--case-sensitive"
        ++ boolSeg absolute_path "--absolute-path"
        ++ optSeg file_type "--type" ++ optSeg extension "--extension"
        ++ depthSeg max_depth ++ optSeg exclude "--exclude"
        ++ patSeg pattern ++ [path]) := by
  unfold build_fd_command
  rcases file_type with _ | t <;> rcases extension with _ | e <;>
    rcases max_depth with _ | d <;> rcases exclude with _ | g <;>
    simp only [ite_extend, ite_extend_flip, optSeg, depthSeg] <;>
    simp only [boolSeg, patSeg, List.append_assoc, List.append_nil, List.nil_append]

/-- The eight option flags build_fd_command can emit. -/
def flagTokens : List String :=
  ["--hidden", "--no-ignore", "--case-sensitive", "--absolute-path",
   "--type", "--extension", "--max-depth", "--exclude"]

theorem notin_flagTokens (s : String) (h : s ∉ flagTokens) :
    s ≠ "--hidden" ∧ s ≠ "--no-ignore" ∧ s ≠ "--case-sensitive"
    ∧ s ≠ "--absolute-path" ∧ s ≠ "--type" ∧ s ≠ "--extension"
    ∧ s ≠ "--max-depth" ∧ s ≠ "--exclude" := by
  simp [flagTokens] at h
  exact ⟨h.1, h.2.1, h.2.2.1, h.2.2.2.1, h.2.2.2.2.1, h.2.2.2.2.2.1,
    h.2.2.2.2.2.2.1, h.2.2.2.2.2.2.2⟩

theorem count_single_notin (a tok : String) (htok : tok ∈ flagTokens)
    (ha : a ∉ flagTokens) : List.count tok [a] = 0 := by
  have hne : a ≠ tok := fun hc => ha (hc ▸ htok)
  simp [List.count_cons, Ne.symm hne]

theorem count_boolSeg_same (flag : String) (b : Bool) :
    (boolSeg b flag).count flag = if b then 1 else 0 := by
  cases b <;> simp [boolSeg]

theorem count_boolSeg_other (tok flag : String) (b : Bool) (h : flag ≠ tok) :
    (boolSeg b flag).count tok = 0 := by
  cases b <;> simp [boolSeg, List.count_cons, Ne.symm h]

theorem count_optSeg_same (o : Option String) (flag : String)
    (hflag : flag ∈ flagTokens) (hv : ∀ t, o = some t → t ∉ flagTokens) :
    (optSeg o flag).count flag = if pyTruthy o then 1 else 0 := by
  cases o with
  | none => simp [optSeg, pyTruthy]
  | some t =>
    have hne : t ≠ flag := fun hc => (hv t rfl) (hc ▸ hflag)
    by_cases h : t = ""
    · simp [optSeg, pyTruthy, h]
    · simp [optSeg, pyTruthy, h, List.count_cons, Ne.symm hne]

theorem count_optSeg_other (o : Option String) (flag tok : String)
    (hflag : flag ≠ tok) (htok : tok ∈ flagTokens)
    (hv : ∀ t, o = some t → t ∉ flagTokens) :
    (optSeg o flag).count tok = 0 := by
  cases o with
  | none => simp [optSeg]
  | some t =>
    have hne : t ≠ tok := fun hc => (hv t rfl) (hc ▸ htok)
    by_cases h : t = ""
    · simp [optSeg, h]
    · simp [optSeg, h, List.count_cons, Ne.symm hne, Ne.symm hflag]

theorem count_depthSeg_same (o : Option Int)
    (hv : ∀ d, o = some d → toString d ∉ flagTokens) :
    (depthSeg o).count "--max-depth" = if o.isSome then 1 else 0 := by
  cases o with
  | none => simp [depthSeg]
  | some d =>
    have hne : toString d ≠ "--max-depth" := fun hc =>
      (hv d rfl) (hc ▸ (by decide : ("--max-depth" : String) ∈ flagTokens))
    simp [depthSeg, List.count_cons, Ne.symm hne]

theorem count_depthSeg_other (o : Option Int) (tok : String)
    (hflag : "--max-depth" ≠ tok) (htok : tok ∈ flagTokens)
    (hv : ∀ d, o = some d → toString d ∉ flagTokens) :
    (depthSeg o).count tok = 0 := by
  cases o with
  | none => simp [depthSeg]
  | some d =>
    have hne : toString d ≠ tok := fun hc => (hv d rfl) (hc ▸ htok)
    simp [depthSeg, List.count_cons, Ne.symm hne, Ne.symm hflag]

theorem count_patSeg_notin (p tok : String) (htok : tok ∈ flagTokens)
    (hp : p ∉ flagTokens) : (patSeg p).count tok = 0 := by
  have hne : p ≠ tok := fun hc => hp (hc ▸ htok)
  by_cases h : p = "" <;> simp [patSeg, h, List.count_cons, Ne.symm hne]

theorem length_boolSeg (b : Bool) (flag : String) :
    (boolSeg b flag).length = if b then 1 else 0 := by
  cases b <;> simp [boolSeg]

theorem length_optSeg (o : Option String) (flag : String) :
    (optSeg o flag).length = if pyTruthy o then 2 else 0 := by
  cases o with
  | none => simp [optSeg, pyTruthy]
  | some t => by_cases h : t = "" <;> simp [optSeg, pyTruthy, h]

theorem length_depthSeg (o : Option Int) :
    (depthSeg o).length = if o.isSome then 2 else 0 := by
  cases o <;> simp [depthSeg]

theorem length_patSeg (p : String) :
    (patSeg p).length = if p = "" then 0 else 1 := by
  by_cases h : p = "" <;> simp [patSeg, h]

/-- C1 amended: provided none of the supplied value strings (binary path,
pattern, search path, type, extension, rendered max-depth, exclude glob) is
itself one of the eight flag tokens, the command list built by
build_fd_command contains the flag of each supplied/true/non-None/non-empty
option exactly once, contains no flag for any absent/False/None/empty option,
has each value flag immediately followed by its value, appends the pattern
(just before the final path element) exactly when it is non-empty, and ends
with the path. -/
theorem build_fd_command_flag_correspondence
    (fd pattern path : String) (file_type extension : Option String)
    (hidden no_ignore : Bool) (max_depth : Option Int) (exclude : Option String)
    (case_sensitive absolute_path : Bool)
    (hfd : fd ∉ flagTokens) (hpat : pattern ∉ flagTokens) (hpath : path ∉ flagTokens)
    (hft : ∀ t, file_type = some t → t ∉ flagTokens)
    (hext : ∀ t, extension = some t → t ∉ flagTokens)
    (hmd : ∀ d, max_depth = some d → toString d ∉ flagTokens)
    (hex : ∀ t, exclude = some t → t ∉ flagTokens) :
    ∃ cmd, build_fd_command (some fd) pattern path file_type extension hidden
        no_ignore max_depth exclude case_sensitive absolute_path = .ok cmd
      ∧ cmd.count "--hidden" = (if hidden then 1 else 0)
      ∧ cmd.count "--no-ignore" = (if no_ignore then 1 else 0)
      ∧ cmd.count "--case-sensitive" = (if case_sensitive then 1 else 0)
      ∧ cmd.count "--absolute-path" = (if absolute_path then 1 else 0)
      ∧ cmd.count "--type" = (if pyTruthy file_type then 1 else 0)
      ∧ cmd.count "--extension" = (if pyTruthy extension then 1 else 0)
      ∧ cmd.count "--max-depth" = (if max_depth.isSome then 1 else 0)
      ∧ cmd.count "--exclude" = (if pyTruthy exclude then 1 else 0)
      ∧ cmd.length = 1 + ((if hidden then 1 else 0) + (if no_ignore then 1 else 0)
          + (if case_sensitive then 1 else 0) + (if absolute_path then 1 else 0)
          + (if pyTruthy file_type then 2 else 0) + (if pyTruthy extension then 2 else 0)
          + (if max_depth.isSome then 2 else 0) + (if pyTruthy exclude then 2 else 0))
          + (if pattern = "" then 0 else 1) + 1
      ∧ (pattern ≠ "" → ∃ front, cmd = front ++ [pattern, path])
      ∧ cmd.getLast? = some path
      ∧ (pyTruthy file_type → ∃ t l r, file_type = some t ∧ cmd = l ++ ["--type", t] ++ r)
      ∧ (pyTruthy extension → ∃ t l r, extension = some t ∧ cmd = l ++ ["--extension", t] ++ r)
      ∧ (∀ d, max_depth = some d → ∃ l r, cmd = l ++ ["--max-depth", toString d] ++ r)
      ∧ (pyTruthy exclude → ∃ t l r, exclude = some t ∧ cmd = l ++ ["--exclude", t] ++ r) := by
  refine ⟨_, build_fd_command_some fd pattern path file_type extension hidden
    no_ignore max_depth exclude case_sensitive absolute_path,
    ?_, ?_, ?_, ?_, ?_, ?_, ?_, ?_, ?_, ?_, ?_, ?_, ?_, ?_, ?_⟩
  · simp only [List.count_append]
    rw [count_single_notin fd "--hidden" (by decide) hfd,
      count_boolSeg_same, count_boolSeg_other _ _ _ (by decide),
      count_boolSeg_other _ _ _ (by decide), count_boolSeg_other _ _ _ (by decide),
      count_optSeg_other _ _ _ (by decide) (by decide) hft,
      count_optSeg_other _ _ _ (by decide) (by decide) hext,
      count_depthSeg_other _ _ (by decide) (by decide) hmd,
      count_optSeg_other _ _ _ (by decide) (by decide) hex,
      count_patSeg_notin _ _ (by decide) hpat,
      count_single_notin path _ (by decide) hpath]
    omega
  · simp only [List.count_append]
    rw [count_single_notin fd "--no-ignore" (by decide) hfd,
      count_boolSeg_same, count_boolSeg_other _ _ _ (by decide),
      count_boolSeg_other _ _ _ (by decide), count_boolSeg_other _ _ _ (by decide),
      count_optSeg_other _ _ _ (by decide) (by decide) hft,
      count_optSeg_other _ _ _ (by decide) (by decide) hext,
      count_depthSeg_other _ _ (by decide) (by decide) hmd,
      count_optSeg_other _ _ _ (by decide) (by decide) hex,
      count_patSeg_notin _ _ (by decide) hpat,
      count_single_notin path _ (by decide) hpath]
    omega
  · simp only [List.count_append]
    rw [count_single_notin fd "--case-sensitive" (by decide) hfd,
      count_boolSeg_same, count_boolSeg_other _ _ _ (by decide),
      count_boolSeg_other _ _ _ (by decide), count_boolSeg_other _ _ _ (by decide),
      count_optSeg_other _ _ _ (by decide) (by decide) hft,
      count_optSeg_other _ _ _ (by decide) (by decide) hext,
      count_depthSeg_other _ _ (by decide) (by decide) hmd,
      count_optSeg_other _ _ _ (by decide) (by decide) hex,
      count_patSeg_notin _ _ (by decide) hpat,
      count_single_notin path _ (by decide) hpath]
    omega
  · simp only [List.count_append]
    rw [count_single_notin fd "--absolute-path" (by decide) hfd,
      count_boolSeg_same, count_boolSeg_other _ _ _ (by decide),
      count_boolSeg_other _ _ _ (by decide), count_boolSeg_other _ _ _ (by decide),
      count_optSeg_other _ _ _ (by decide) (by decide) hft,
      count_optSeg_other _ _ _ (by decide) (by decide) hext,
      count_depthSeg_other _ _ (by decide) (by decide) hmd,
      count_optSeg_other _ _ _ (by decide) (by decide) hex,
      count_patSeg_notin _ _ (by decide) hpat,
      count_single_notin path _ (by decide) hpath]
    omega
  · simp only [List.count_append]
    rw [count_single_notin fd "--type" (by decide) hfd,
      count_optSeg_same _ _ (by decide) hft,
      count_boolSeg_other _ _ _ (by decide), count_boolSeg_other _ _ _ (by decide),
      count_boolSeg_other _ _ _ (by decide), count_boolSeg_other _ _ _ (by decide),
      count_optSeg_other _ _ _ (by decide) (by decide) hext,
      count_depthSeg_other _ _ (by decide) (by decide) hmd,
      count_optSeg_other _ _ _ (by decide) (by decide) hex,
      count_patSeg_notin _ _ (by decide) hpat,
      count_single_notin path _ (by decide) hpath]
    omega
  · simp only [List.count_append]
    rw [count_single_notin fd "--extension" (by decide) hfd,
      count_optSeg_same _ _ (by decide) hext,
      count_boolSeg_other _ _ _ (by decide), count_boolSeg_other _ _ _ (by decide),
      count_boolSeg_other _ _ _ (by decide), count_boolSeg_other _ _ _ (by decide),
      count_optSeg_other _ _ _ (by decide) (by decide) hft,
      count_depthSeg_other _ _ (by decide) (by decide) hmd,
      count_optSeg_other _ _ _ (by decide) (by decide) hex,
      count_patSeg_notin _ _ (by decide) hpat,
      count_single_notin path _ (by decide) hpath]
    omega
  · simp only [List.count_append]
    rw [count_single_notin fd "--max-depth" (by decide) hfd,
      count_depthSeg_same _ hmd,
      count_boolSeg_other _ _ _ (by decide), count_boolSeg_other _ _ _ (by decide),
      count_boolSeg_other _ _ _ (by decide), count_boolSeg_other _ _ _ (by decide),
      count_optSeg_other _ _ _ (by decide) (by decide) hft,
      count_optSeg_other _ _ _ (by decide) (by decide) hext,
      count_optSeg_other _ _ _ (by decide) (by decide) hex,
      count_patSeg_notin _ _ (by decide) hpat,
      count_single_notin path _ (by decide) hpath]
    omega
  · simp only [List.count_append]
    rw [count_single_notin fd "--exclude" (by decide) hfd,
      count_optSeg_same _ _ (by decide) hex,
      count_boolSeg_other _ _ _ (by decide), count_boolSeg_other _ _ _ (by decide),
      count_boolSeg_other _ _ _ (by decide), count_boolSeg_other _ _ _ (by decide),
      count_optSeg_other _ _ _ (by decide) (by decide) hft,
      count_optSeg_other _ _ _ (by decide) (by decide) hext,
      count_depthSeg_other _ _ (by decide) (by decide) hmd,
      count_patSeg_notin _ _ (by decide) hpat,
      count_single_notin path _ (by decide) hpath]
    omega
  · simp only [List.length_append, length_boolSeg, length_optSeg, length_depthSeg,
      length_patSeg, List.length_cons, List.length_nil]
    omega
  · intro hne
    refine ⟨[fd] ++ boolSeg hidden "--hidden" ++ boolSeg no_ignore "--no-ignore"
      ++ boolSeg case_sensitive "--case-sensitive"
      ++ boolSeg absolute_path "--absolute-path"
      ++ optSeg file_type "--type" ++ optSeg extension "--extension"
      ++ depthSeg max_depth ++ optSeg exclude "--exclude", ?_⟩
    simp [patSeg, hne, List.append_assoc]
  · rw [List.getLast?_concat]
  · intro htr
    cases hcase : file_type with
    | none => rw [hcase] at htr; exact absurd htr (by simp [pyTruthy])
    | some t =>
      rw [hcase] at htr
      have htne : t ≠ "" := by simpa [pyTruthy] using htr
      refine ⟨t, [fd] ++ boolSeg hidden "--hidden" ++ boolSeg no_ignore "--no-ignore"
        ++ boolSeg case_sensitive "--case-sensitive"
        ++ boolSeg absolute_path "--absolute-path",
        optSeg extension "--extension" ++ depthSeg max_depth
        ++ optSeg exclude "--exclude" ++ patSeg pattern ++ [path], rfl, ?_⟩
      simp [optSeg, htne, List.append_assoc]
  · intro htr
    cases hcase : extension with
    | none => rw [hcase] at htr; exact absurd htr (by simp [pyTruthy])
    | some t =>
      rw [hcase] at htr
      have htne : t ≠ "" := by simpa [pyTruthy] using htr
      refine ⟨t, [fd] ++ boolSeg hidden "--hidden" ++ boolSeg no_ignore "--no-ignore"
        ++ boolSeg case_sensitive "--case-sensitive"
        ++ boolSeg absolute_path "--absolute-path" ++ optSeg file_type "--type",
        depthSeg max_depth ++ optSeg exclude "--exclude"
        ++ patSeg pattern ++ [path], rfl, ?_⟩
      simp [optSeg, htne, List.append_assoc]
  · intro d hcase
    refine ⟨[fd] ++ boolSeg hidden "--hidden" ++ boolSeg no_ignore "--no-ignore"
      ++ boolSeg case_sensitive "--case-sensitive"
      ++ boolSeg absolute_path "--absolute-path" ++ optSeg file_type "--type"
      ++ optSeg extension "--extension",
      optSeg exclude "--exclude" ++ patSeg pattern ++ [path], ?_⟩
    rw [hcase]
    simp [depthSeg, List.append_assoc]
  · intro htr
    cases hcase : exclude with
    | none => rw [hcase] at htr; exact absurd htr (by simp [pyTruthy])
    | some t =>
      rw [hcase] at htr
      have htne : t ≠ "" := by simpa [pyTruthy] using htr
      refine ⟨t, [fd] ++ boolSeg hidden "--hidden" ++ boolSeg no_ignore "--no-ignore"
        ++ boolSeg case_sensitive "--case-sensitive"
        ++ boolSeg absolute_path "--absolute-path" ++ optSeg file_type "--type"
        ++ optSeg extension "--extension" ++ depthSeg max_depth,
        patSeg pattern ++ [path], rfl, ?_⟩
      simp [optSeg, htne, List.append_assoc]

/-- C1 counterexample: with the pattern argument equal to the string
"--hidden" and the hidden option False, the built command list nevertheless
contains the flag token "--hidden" (as the appended pattern), so the claim
that the list contains no flag for an absent/False option fails without the
no-collision proviso. -/
theorem build_fd_command_flag_collision :
    build_fd_command (some "fd") "--hidden" "." none none false false none none
        false false = .ok ["fd", "--hidden", "."]
    ∧ List.count "--hidden" ["fd", "--hidden", "."] = 1 := by
  constructor
  · rfl
  · decide

/-- C1 witness: the amended flag-correspondence statement instantiated at a
concrete option combination. -/
theorem build_fd_command_flag_correspondence_witness :
    ∃ cmd, build_fd_command (some "fd") "pat" "." (some "f") none true false
        (some 2) none false true = .ok cmd
      ∧ cmd.count "--hidden" = 1
      ∧ cmd.count "--no-ignore" = 0
      ∧ cmd.count "--type" = 1
      ∧ cmd.count "--max-depth" = 1
      ∧ cmd.getLast? = some "." := by
  obtain ⟨cmd, hok, h1, h2, _, _, h5, _, h7, _, _, _, hlast, _, _, _, _⟩ :=
    build_fd_command_flag_correspondence "fd" "pat" "." (some "f") none true
      false (some 2) none false true (by decide) (by decide) (by decide)
      (fun t ht => by cases ht; decide) (fun t ht => by cases ht)
      (fun d hd => by cases hd; decide) (fun t ht => by cases ht)
  exact ⟨cmd, hok, by simpa using h1, by simpa using h2, by simpa using h5,
    by simpa using h7, hlast⟩

namespace GenerateFiles

/-- Python file counts are ints; int(file_count * fraction) is modelled as
exact integer multiplication followed by truncating division, which agrees
with the float computation in src/benchmark/generate_files.py for every
feasible file count, all values involved being non-negative. -/
def py_src_files (file_count : Int) : Int := file_count * 15 / 100

def py_helpers (file_count : Int) : Int := file_count * 5 / 100

def test_files (file_count : Int) : Int := file_count * 15 / 100

def js_components (file_count : Int) : Int := file_count * 10 / 100

def js_utils (file_count : Int) : Int := file_count * 5 / 100

def json_config (file_count : Int) : Int := file_count * 5 / 100

def yaml_config (file_count : Int) : Int := file_count * 5 / 100

def docs (file_count : Int) : Int := file_count * 10 / 100

def scripts (file_count : Int) : Int := file_count * 8 / 100

def py_lib (file_count : Int) : Int := file_count * 4 / 100

def js_lib (file_count : Int) : Int := file_count * 3 / 100

def examples (file_count : Int) : Int := file_count * 10 / 100

def txt_files (file_count : Int) : Int := file_count * 3 / 100

def env_files (file_count : Int) : Int := file_count * 1 / 100

def readme_files (file_count : Int) : Int := file_count * 1 / 100

def total_allocated (file_count : Int) : Int :=
  py_src_files file_count + py_helpers file_count + test_files file_count
  + js_components file_count + js_utils file_count + json_config file_count
  + yaml_config file_count + docs file_count + scripts file_count
  + py_lib file_count + js_lib file_count + examples file_count
  + txt_files file_count + env_files file_count + readme_files file_count

def remaining (file_count : Int) : Int := file_count - total_allocated file_count

def legacy_files (file_count : Int) : Int := remaining file_count * 6 / 10

def integration_tests (file_count : Int) : Int :=
  remaining file_count - legacy_files file_count

end GenerateFiles

/-- C5: for every requested total accepted by the benchmark generator (at
least 100), the seventeen per-category file counts sum to exactly the
requested total, and every one of the seventeen counts is non-negative. -/
theorem generate_files_distribution (n : Int) (h : 100 ≤ n) :
    (GenerateFiles.py_src_files n + GenerateFiles.py_helpers n
      + GenerateFiles.test_files n + GenerateFiles.js_components n
      + GenerateFiles.js_utils n + GenerateFiles.json_config n
      + GenerateFiles.yaml_config n + GenerateFiles.docs n
      + GenerateFiles.scripts n + GenerateFiles.py_lib n
      + GenerateFiles.js_lib n + GenerateFiles.examples n
      + GenerateFiles.txt_files n + GenerateFiles.env_files n
      + GenerateFiles.readme_files n + GenerateFiles.legacy_files n
      + GenerateFiles.integration_tests n = n)
    ∧ 0 ≤ GenerateFiles.py_src_files n ∧ 0 ≤ GenerateFiles.py_helpers n
    ∧ 0 ≤ GenerateFiles.test_files n ∧ 0 ≤ GenerateFiles.js_components n
    ∧ 0 ≤ GenerateFiles.js_utils n ∧ 0 ≤ GenerateFiles.json_config n
    ∧ 0 ≤ GenerateFiles.yaml_config n ∧ 0 ≤ GenerateFiles.docs n
    ∧ 0 ≤ GenerateFiles.scripts n ∧ 0 ≤ GenerateFiles.py_lib n
    ∧ 0 ≤ GenerateFiles.js_lib n ∧ 0 ≤ GenerateFiles.examples n
    ∧ 0 ≤ GenerateFiles.txt_files n ∧ 0 ≤ GenerateFiles.env_files n
    ∧ 0 ≤ GenerateFiles.readme_files n ∧ 0 ≤ GenerateFiles.legacy_files n
    ∧ 0 ≤ GenerateFiles.integration_tests n := by
  simp only [GenerateFiles.integration_tests, GenerateFiles.legacy_files,
    GenerateFiles.remaining, GenerateFiles.total_allocated,
    GenerateFiles.py_src_files, GenerateFiles.py_helpers,
    GenerateFiles.test_files, GenerateFiles.js_components,
    GenerateFiles.js_utils, GenerateFiles.json_config,
    GenerateFiles.yaml_config, GenerateFiles.docs, GenerateFiles.scripts,
    GenerateFiles.py_lib, GenerateFiles.js_lib, GenerateFiles.examples,
    GenerateFiles.txt_files, GenerateFiles.env_files,
    GenerateFiles.readme_files]
  omega

/-- C5 witness: the distribution property evaluated at the smallest accepted
total. -/
theorem generate_files_distribution_witness :
    GenerateFiles.py_src_files 100 + GenerateFiles.py_helpers 100
      + GenerateFiles.test_files 100 + GenerateFiles.js_components 100
      + GenerateFiles.js_utils 100 + GenerateFiles.json_config 100
      + GenerateFiles.yaml_config 100 + GenerateFiles.docs 100
      + GenerateFiles.scripts 100 + GenerateFiles.py_lib 100
      + GenerateFiles.js_lib 100 + GenerateFiles.examples 100
      + GenerateFiles.txt_files 100 + GenerateFiles.env_files 100
      + GenerateFiles.readme_files 100 + GenerateFiles.legacy_files 100
      + GenerateFiles.integration_tests 100 = 100
    ∧ 0 ≤ GenerateFiles.legacy_files 100
    ∧ 0 ≤ GenerateFiles.integration_tests 100 := by
  obtain ⟨hsum, hrest⟩ := generate_files_distribution 100 (by decide)
  exact ⟨hsum, hrest.2.2.2.2.2.2.2.2.2.2.2.2.2.2.2.1, hrest.2.2.2.2.2.2.2.2.2.2.2.2.2.2.2.2⟩

/-- File-discovery command built inside run_fd_with_content_search; the first
element is FD_CMD itself, which may be None. -/
def content_fd_cmd (FD_CMD : Option String) (file_pattern path : String)
    (extension file_type : Option String) (hidden no_ignore : Bool) : Argv :=
  let fd_cmd : Argv := [FD_CMD]
  let fd_cmd := if hidden then fd_cmd ++ [some "--hidden"] else fd_cmd
  let fd_cmd := if no_ignore then fd_cmd ++ [some "--no-ignore"] else fd_cmd
  let fd_cmd := match file_type with
    | some t => if t = "" then fd_cmd else fd_cmd ++ [some "--type", some t]
    | none => fd_cmd
  let fd_cmd := match extension with
    | some e => if e = "" then fd_cmd else fd_cmd ++ [some "--extension", some e]
    | none => fd_cmd
  let fd_cmd := if file_pattern = "" then fd_cmd else fd_cmd ++ [some file_pattern]
  fd_cmd ++ [some path]

/-- Ripgrep command prefix built inside run_fd_with_content_search, before
the discovered file list is appended. -/
def content_rg_cmd (rg : String) (search_pattern : String)
    (case_sensitive : Bool) (context_lines : Int) : List String :=
  let rg_cmd := [rg]
  let rg_cmd := if case_sensitive then rg_cmd else rg_cmd ++ ["--ignore-case"]
  let rg_cmd := if context_lines > 0 then
    rg_cmd ++ ["--context", toString context_lines] else rg_cmd
  let rg_cmd := rg_cmd ++ ["--line-number", "--heading", "--color=never"]
  rg_cmd ++ [search_pattern]

/-- run_fd_with_content_search from src/fd_mcp/server.py. -/
def run_fd_with_content_search (FD_CMD RG_CMD : Option String) (env : ProcEnv)
    (search_pattern file_pattern path : String)
    (extension file_type : Option String) (hidden no_ignore : Bool)
    (case_sensitive : Bool) (context_lines : Int) (max_results : Nat) : String :=
  match RG_CMD with
  | none => "Error: ripgrep (rg) not found. Please install ripgrep for content search."
  | some rg =>
    match env.run (content_fd_cmd FD_CMD file_pattern path extension file_type
        hidden no_ignore) with
    | .timeout _ => "Error: Command timed out after 30 seconds"
    | .exn e => "Error: " ++ e
    | .ok stdout _ _ =>
      if pyStrip stdout = "" then "No files found matching the file pattern."
      else
        let files := pySplitNL (pyStrip stdout)
        match env.run ((content_rg_cmd rg search_pattern case_sensitive
            context_lines ++ files.take max_results).map some) with
        | .timeout _ => "Error: Command timed out after 30 seconds"
        | .exn e => "Error: " ++ e
        | .ok rout rerr rrc =>
          if rrc = 0 then
            let output := pyStrip rout
            let output := if files.length > max_results then
                output ++ ("\n\n... searched " ++ toString max_results ++ " of "
                  ++ toString files.length ++ " files (truncated)")
              else output
            if output = "" then "No content matches found." else output
          else if rrc = 1 then "No content matches found in the files."
          else "Error: " ++ rerr

/-- Python command.replace on the two-character placeholder made of an
opening and a closing curly brace, on character lists. -/
def replaceBracesList (file : List Char) : List Char → List Char
  | '\x7b' :: '\x7d' :: rest => file ++ replaceBracesList file rest
  | c :: rest => c :: replaceBracesList file rest
  | [] => []

/-- Python command.replace of the curly-brace placeholder by the file path. -/
def pyReplaceBraces (command file : String) : String :=
  String.mk (replaceBracesList file.data command.data)

/-- The per-file loop of run_fd_exec: the shell command of each file is executed
with its own timeout; any raised exception aborts the whole loop and is
caught by the enclosing handler; files whose command produced neither stdout
nor stderr are omitted from the collected results. -/
def exec_loop (env : ProcEnv) (command : String) :
    List String → Except String (List String)
  | [] => .ok []
  | file :: rest =>
    match env.shell (pyReplaceBraces command file) with
    | .timeout m => .error m
    | .exn m => .error m
    | .ok out err _ =>
      match exec_loop env command rest with
      | .error m => .error m
      | .ok results =>
        .ok (if out != "" || err != "" then
          (file ++ ":\n" ++ out ++ err) :: results else results)

/-- run_fd_exec from src/fd_mcp/server.py.  The call to build_fd_command sits
outside the try block, so a RuntimeError from a missing fd binary propagates
(Except.error); every other failure is converted to an Error text. -/
def run_fd_exec (FD_CMD : Option String) (env : ProcEnv)
    (command pattern path : String) (file_type extension : Option String)
    (hidden no_ignore : Bool) (max_files : Nat) : Except String String :=
  match build_fd_command FD_CMD pattern path file_type extension hidden
      no_ignore none none false false with
  | .error e => .error e
  | .ok fd_cmd =>
    .ok (match env.run (fd_cmd.map some) with
      | .timeout m => "Error: " ++ m
      | .exn m => "Error: " ++ m
      | .ok stdout _ _ =>
        if pyStrip stdout = "" then "No files found."
        else
          let files := (pySplitNL (pyStrip stdout)).take max_files
          match exec_loop env command files with
          | .error m => "Error: " ++ m
          | .ok results =>
            if results.isEmpty then
              "Command executed on " ++ toString files.length ++ " files (no output)"
            else if files.length = max_files then
              joinNN results ++ ("\n\n... processed " ++ toString max_files
                ++ " files (limit reached)")
            else joinNN results)

/-- find_recent_files from src/fd_mcp/server.py; the command list starts with
FD_CMD itself, which may be None. -/
def find_recent_files (FD_CMD : Option String) (env : ProcEnv) (path : String)
    (hours : Int) (file_type extension : Option String) (max_results : Nat) :
    String :=
  let cmd : Argv := [FD_CMD, some "--changed-within", some (toString hours ++ "h")]
  let cmd := match file_type with
    | some t => if t = "" then cmd else cmd ++ [some "--type", some t]
    | none => cmd
  let cmd := match extension with
    | some e => if e = "" then cmd else cmd ++ [some "--extension", some e]
    | none => cmd
  run_fd env (cmd ++ [some path]) max_results

/-- A tool as advertised by list_tools, reduced to its name. -/
structure Tool where
  name : String

/-- list_tools from src/fd_mcp/server.py: the five tools, with
fd_search_content filtered out when ripgrep was not detected. -/
def list_tools (RG_CMD : Option String) : List Tool :=
  let tools : List Tool := [⟨"fd_search"⟩, ⟨"fd_search_content"⟩, ⟨"fd_exec"⟩,
    ⟨"fd_recent_files"⟩, ⟨"fd_count"⟩]
  match RG_CMD with
  | none => tools.filter (fun t => t.name != "fd_search_content")
  | some _ => tools

/-- The argument mapping of a tool call: a typed view of the Python dict,
with None standing for an absent key. -/
structure Arguments where
  pattern : Option String
  path : Option String
  type : Option String
  extension : Option String
  hidden : Option Bool
  no_ignore : Option Bool
  max_depth : Option Int
  exclude : Option String
  case_sensitive : Option Bool
  absolute_path : Option Bool
  max_results : Option Nat
  search_pattern : Option String
  file_pattern : Option String
  context_lines : Option Int
  command : Option String
  hours : Option Int
  max_files : Option Nat

/-- The empty argument mapping. -/
def noArgs : Arguments :=
  ⟨none, none, none, none, none, none, none, none, none, none, none, none,
   none, none, none, none, none⟩

/-- call_tool from src/fd_mcp/server.py.  Except.error models a Python
exception escaping the handler (the RuntimeError raised by build_fd_command,
or the KeyError raised by a missing required argument). -/
def call_tool (FD_CMD RG_CMD : Option String) (env : ProcEnv) (name : String)
    (arguments : Arguments) : Except String (List String) :=
  if name = "fd_search" then
    match build_fd_command FD_CMD (arguments.pattern.getD "")
        (arguments.path.getD ".") arguments.type arguments.extension
        (arguments.hidden.getD false) (arguments.no_ignore.getD false)
        arguments.max_depth arguments.exclude
        (arguments.case_sensitive.getD false)
        (arguments.absolute_path.getD false) with
    | .error e => .error e
    | .ok cmd => .ok [run_fd env (cmd.map some) (arguments.max_results.getD 100)]
  else if name = "fd_search_content" then
    match arguments.search_pattern with
    | none => .error "KeyError: search_pattern"
    | some sp =>
      .ok [run_fd_with_content_search FD_CMD RG_CMD env sp
        (arguments.file_pattern.getD "") (arguments.path.getD ".")
        arguments.extension arguments.type (arguments.hidden.getD false)
        (arguments.no_ignore.getD false) (arguments.case_sensitive.getD false)
        (arguments.context_lines.getD 0) (arguments.max_results.getD 100)]
  else if name = "fd_exec" then
    match arguments.command with
    | none => .error "KeyError: command"
    | some c =>
      match run_fd_exec FD_CMD env c (arguments.pattern.getD "")
          (arguments.path.getD ".") arguments.type arguments.extension
          (arguments.hidden.getD false) (arguments.no_ignore.getD false)
          (arguments.max_files.getD 100) with
      | .error e => .error e
      | .ok text => .ok [text]
  else if name = "fd_recent_files" then
    .ok [find_recent_files FD_CMD env (arguments.path.getD ".")
      (arguments.hours.getD 24) arguments.type arguments.extension
      (arguments.max_results.getD 50)]
  else if name = "fd_count" then
    match build_fd_command FD_CMD (arguments.pattern.getD "")
        (arguments.path.getD ".") arguments.type arguments.extension
        (arguments.hidden.getD false) false none none false false with
    | .error e => .error e
    | .ok cmd =>
      .ok [match env.run (cmd.map some) with
        | .timeout m => "Error: " ++ m
        | .exn m => "Error: " ++ m
        | .ok stdout _ _ =>
          let lines := if pyStrip stdout = "" then [] else pySplitNL (pyStrip stdout)
          "Found " ++ toString (lines.filter (fun l => l != "")).length ++ " matches"]
  else .ok ["Unknown tool: " ++ name]

/-- C7: list_tools advertises fd_search_content exactly when the ripgrep
binary was detected, and always advertises the other four tools. -/
theorem list_tools_advertises (RG_CMD : Option String) :
    (("fd_search_content" ∈ (list_tools RG_CMD).map Tool.name) ↔ RG_CMD.isSome)
    ∧ "fd_search" ∈ (list_tools RG_CMD).map Tool.name
    ∧ "fd_exec" ∈ (list_tools RG_CMD).map Tool.name
    ∧ "fd_recent_files" ∈ (list_tools RG_CMD).map Tool.name
    ∧ "fd_count" ∈ (list_tools RG_CMD).map Tool.name := by
  cases RG_CMD with
  | none => refine ⟨?_, ?_, ?_, ?_, ?_⟩ <;> decide
  | some s => refine ⟨?_, ?_, ?_, ?_, ?_⟩ <;> simp [list_tools]

/-- Number of non-empty lines of the stripped text: the specification-side
count reported by the fd_count tool. -/
def countNonEmptyLines (s : String) : Nat :=
  ((pySplitNL (pyStrip s)).filter (fun l => l != "")).length

/-- C6: for every discovery output, the fd_count tool reports exactly the
number of non-empty lines of the stripped stdout in the text
"Found N matches". -/
theorem fd_count_reports (fd : String) (RG_CMD : Option String) (env : ProcEnv)
    (args : Arguments) (stdout stderr : String) (rc : Int)
    (h : ∀ c, env.run c = .ok stdout stderr rc) :
    call_tool (some fd) RG_CMD env "fd_count" args =
      .ok ["Found " ++ toString (countNonEmptyLines stdout) ++ " matches"] := by
  unfold call_tool
  rw [if_neg (by decide : ¬("fd_count" = "fd_search")),
    if_neg (by decide : ¬("fd_count" = "fd_search_content")),
    if_neg (by decide : ¬("fd_count" = "fd_exec")),
    if_neg (by decide : ¬("fd_count" = "fd_recent_files")),
    if_pos (rfl : "fd_count" = "fd_count")]
  rw [build_fd_command_some]
  dsimp only
  rw [h]
  dsimp only
  unfold countNonEmptyLines
  by_cases hs : pyStrip stdout = ""
  · rw [if_pos hs, hs]
    simp [show pySplitNL "" = [""] from by decide]
  · rw [if_neg hs]

/-- C6 witness: the count report evaluated on a concrete discovery output
with an interior blank line. -/
theorem fd_count_reports_witness :
    call_tool (some "fd") none (envConst (.ok "a\n\nb\n" "" 0)) "fd_count"
        noArgs = .ok ["Found 2 matches"] := by
  have h := fd_count_reports "fd" none (envConst (.ok "a\n\nb\n" "" 0)) noArgs
    "a\n\nb\n" "" 0 (fun c => rfl)
  rw [h, show countNonEmptyLines "a\n\nb\n" = 2 from by decide]
  rfl

/-- C3 counterexample: with the fd binary absent, an fd_search invocation
does not return an error text; the RuntimeError raised by build_fd_command
propagates out of the tool handler (modelled as Except.error). -/
theorem call_tool_missing_fd_counterexample :
    call_tool none (some "rg") (envConst (.ok "" "" 0)) "fd_search" noArgs =
      .error "fd/fdfind not found in PATH" := rfl

/-- C3 amended: with ripgrep absent, a content-search invocation returns the
fixed descriptive error text; with fd absent, fd_search, fd_exec and fd_count
instead propagate the RuntimeError raised by build_fd_command out of the tool
handler (the server refuses to start in that state), while fd_recent_files
still returns a text for every process outcome. -/
theorem call_tool_missing_binary_amended (FD_CMD RG_CMD : Option String)
    (env : ProcEnv) (args : Arguments) (sp c : String) :
    (args.search_pattern = some sp →
      call_tool FD_CMD none env "fd_search_content" args =
        .ok ["Error: ripgrep (rg) not found. Please install ripgrep for content search."])
    ∧ call_tool none RG_CMD env "fd_search" args =
        .error "fd/fdfind not found in PATH"
    ∧ (args.command = some c →
      call_tool none RG_CMD env "fd_exec" args =
        .error "fd/fdfind not found in PATH")
    ∧ call_tool none RG_CMD env "fd_count" args =
        .error "fd/fdfind not found in PATH"
    ∧ ∃ text, call_tool none RG_CMD env "fd_recent_files" args = .ok [text] := by
  refine ⟨?_, rfl, ?_, rfl, ⟨_, rfl⟩⟩
  · intro hsp
    unfold call_tool
    rw [if_neg (by decide : ¬("fd_search_content" = "fd_search")),
      if_pos (rfl : "fd_search_content" = "fd_search_content")]
    rw [hsp]
    rfl
  · intro hc
    unfold call_tool
    rw [if_neg (by decide : ¬("fd_exec" = "fd_search")),
      if_neg (by decide : ¬("fd_exec" = "fd_search_content")),
      if_pos (rfl : "fd_exec" = "fd_exec")]
    rw [hc]
    rfl

/-- C3 witness: the amended missing-binary behaviour at concrete inputs. -/
theorem call_tool_missing_binary_amended_witness :
    call_tool (some "fd") none (envConst (.ok "" "" 0)) "fd_search_content"
        { noArgs with search_pattern := some "x", command := some "c" } =
      .ok ["Error: ripgrep (rg) not found. Please install ripgrep for content search."]
    ∧ call_tool none (some "rg") (envConst (.ok "" "" 0)) "fd_exec"
        { noArgs with search_pattern := some "x", command := some "c" } =
      .error "fd/fdfind not found in PATH" := by
  have h := call_tool_missing_binary_amended (some "fd") (some "rg")
    (envConst (.ok "" "" 0))
    { noArgs with search_pattern := some "x", command := some "c" } "x" "c"
  exact ⟨h.1 rfl, h.2.2.1 rfl⟩

theorem run_fd_exec_some_ok (f : String) (env : ProcEnv)
    (command pattern path : String) (file_type extension : Option String)
    (hidden no_ignore : Bool) (max_files : Nat) :
    ∃ t, run_fd_exec (some f) env command pattern path file_type extension
      hidden no_ignore max_files = .ok t := by
  unfold run_fd_exec
  rw [build_fd_command_some]
  exact ⟨_, rfl⟩

theorem run_fd_fail (env : ProcEnv) (cmd : Argv) (maxr : Nat)
    (h : (∃ m, env.run cmd = .timeout m) ∨ (∃ m, env.run cmd = .exn m)) :
    ∃ m, run_fd env cmd maxr = "Error: " ++ m := by
  rcases h with ⟨m, hm⟩ | ⟨m, hm⟩
  · exact ⟨"Command timed out after 30 seconds", by unfold run_fd; rw [hm]; rfl⟩
  · exact ⟨m, by unfold run_fd; rw [hm]⟩

theorem content_search_fail (FD_CMD : Option String) (rg : String)
    (env : ProcEnv) (sp fp path : String) (ext ft : Option String)
    (hid ni cs : Bool) (cl : Int) (maxr : Nat)
    (henv : ∀ cm, (∃ m, env.run cm = .timeout m) ∨ (∃ m, env.run cm = .exn m)) :
    ∃ m, run_fd_with_content_search FD_CMD (some rg) env sp fp path ext ft
      hid ni cs cl maxr = "Error: " ++ m := by
  unfold run_fd_with_content_search
  rcases henv (content_fd_cmd FD_CMD fp path ext ft hid ni) with ⟨m, hm⟩ | ⟨m, hm⟩
  · exact ⟨"Command timed out after 30 seconds", by rw [hm]; rfl⟩
  · exact ⟨m, by rw [hm]⟩

theorem run_fd_exec_fail (f : String) (env : ProcEnv)
    (command pattern path : String) (ft ext : Option String) (hid ni : Bool)
    (mf : Nat)
    (henv : ∀ cm, (∃ m, env.run cm = .timeout m) ∨ (∃ m, env.run cm = .exn m)) :
    ∃ m, run_fd_exec (some f) env command pattern path ft ext hid ni mf =
      .ok ("Error: " ++ m) := by
  obtain ⟨l, hl⟩ : ∃ l, build_fd_command (some f) pattern path ft ext hid ni
      none none false false = .ok l :=
    ⟨_, build_fd_command_some f pattern path ft ext hid ni none none false false⟩
  unfold run_fd_exec
  rw [hl]
  dsimp only
  rcases henv (l.map some) with ⟨m, hm⟩ | ⟨m, hm⟩ <;> rw [hm] <;> exact ⟨m, rfl⟩

/-- C4 counterexample: an fd_exec invocation whose argument mapping lacks the
required command key raises a KeyError out of call_tool instead of producing
a textual result. -/
theorem call_tool_missing_argument_counterexample :
    call_tool (some "fd") (some "rg") (envConst (.ok "" "" 0)) "fd_exec"
        noArgs = .error "KeyError: command" := rfl

/-- C4 amended: when the fd binary is present and the required argument of
the invoked tool is supplied, call_tool returns a textual response for every
tool name and every process-outcome environment; moreover, when every process
invocation fails (timeout or any exception), the single text returned for
each of the five tools is an Error text. -/
theorem call_tool_text_contract (fd : String) (RG_CMD : Option String)
    (env : ProcEnv) (name : String) (args : Arguments)
    (hsc : name = "fd_search_content" → args.search_pattern.isSome)
    (hcmd : name = "fd_exec" → args.command.isSome) :
    (∃ texts, call_tool (some fd) RG_CMD env name args = .ok texts)
    ∧ ((∀ cm, (∃ m, env.run cm = .timeout m) ∨ (∃ m, env.run cm = .exn m)) →
      (name = "fd_search" ∨ name = "fd_search_content" ∨ name = "fd_exec"
        ∨ name = "fd_recent_files" ∨ name = "fd_count") →
      ∃ m, call_tool (some fd) RG_CMD env name args = .ok ["Error: " ++ m]) := by
  constructor
  · by_cases h1 : name = "fd_search"
    · subst h1
      unfold call_tool
      rw [if_pos rfl, build_fd_command_some]
      exact ⟨_, rfl⟩
    · by_cases h2 : name = "fd_search_content"
      · subst h2
        obtain ⟨sp, hsp⟩ := Option.isSome_iff_exists.mp (hsc rfl)
        unfold call_tool
        rw [if_neg h1, if_pos rfl, hsp]
        exact ⟨_, rfl⟩
      · by_cases h3 : name = "fd_exec"
        · subst h3
          obtain ⟨c, hc⟩ := Option.isSome_iff_exists.mp (hcmd rfl)
          obtain ⟨t, ht⟩ := run_fd_exec_some_ok fd env c (args.pattern.getD "")
            (args.path.getD ".") args.type args.extension
            (args.hidden.getD false) (args.no_ignore.getD false)
            (args.max_files.getD 100)
          unfold call_tool
          rw [if_neg h1, if_neg h2, if_pos rfl, hc]
          dsimp only
          rw [ht]
          exact ⟨_, rfl⟩
        · by_cases h4 : name = "fd_recent_files"
          · subst h4
            unfold call_tool
            rw [if_neg h1, if_neg h2, if_neg h3, if_pos rfl]
            exact ⟨_, rfl⟩
          · by_cases h5 : name = "fd_count"
            · subst h5
              unfold call_tool
              rw [if_neg h1, if_neg h2, if_neg h3, if_neg h4, if_pos rfl,
                build_fd_command_some]
              exact ⟨_, rfl⟩
            · unfold call_tool
              rw [if_neg h1, if_neg h2, if_neg h3, if_neg h4, if_neg h5]
              exact ⟨_, rfl⟩
  · intro henv hname
    rcases hname with h | h | h | h | h <;> subst h
    · unfold call_tool
      rw [if_pos rfl]
      obtain ⟨l, hl⟩ : ∃ l, build_fd_command (some fd) (args.pattern.getD "")
          (args.path.getD ".") args.type args.extension
          (args.hidden.getD false) (args.no_ignore.getD false) args.max_depth
          args.exclude (args.case_sensitive.getD false)
          (args.absolute_path.getD false) = .ok l :=
        ⟨_, build_fd_command_some _ _ _ _ _ _ _ _ _ _ _⟩
      rw [hl]
      dsimp only
      obtain ⟨m, hm⟩ := run_fd_fail env (l.map some)
        (args.max_results.getD 100) (henv _)
      rw [hm]
      exact ⟨m, rfl⟩
    · obtain ⟨sp, hsp⟩ := Option.isSome_iff_exists.mp (hsc rfl)
      unfold call_tool
      rw [if_neg (by decide : ¬("fd_search_content" = "fd_search")),
        if_pos rfl, hsp]
      cases RG_CMD with
      | none =>
        exact ⟨"ripgrep (rg) not found. Please install ripgrep for content search.", rfl⟩
      | some rg =>
        obtain ⟨m, hm⟩ := content_search_fail (some fd) rg env sp
          (args.file_pattern.getD "") (args.path.getD ".") args.extension
          args.type (args.hidden.getD false) (args.no_ignore.getD false)
          (args.case_sensitive.getD false) (args.context_lines.getD 0)
          (args.max_results.getD 100) henv
        dsimp only
        rw [hm]
        exact ⟨m, rfl⟩
    · obtain ⟨c, hc⟩ := Option.isSome_iff_exists.mp (hcmd rfl)
      unfold call_tool
      rw [if_neg (by decide : ¬("fd_exec" = "fd_search")),
        if_neg (by decide : ¬("fd_exec" = "fd_search_content")),
        if_pos rfl, hc]
      dsimp only
      obtain ⟨m, hm⟩ := run_fd_exec_fail fd env c (args.pattern.getD "")
        (args.path.getD ".") args.type args.extension
        (args.hidden.getD false) (args.no_ignore.getD false)
        (args.max_files.getD 100) henv
      rw [hm]
      exact ⟨m, rfl⟩
    · unfold call_tool
      rw [if_neg (by decide : ¬("fd_recent_files" = "fd_search")),
        if_neg (by decide : ¬("fd_recent_files" = "fd_search_content")),
        if_neg (by decide : ¬("fd_recent_files" = "fd_exec")), if_pos rfl]
      unfold find_recent_files
      obtain ⟨m, hm⟩ := run_fd_fail env _ (args.max_results.getD 50) (henv _)
      rw [hm]
      exact ⟨m, rfl⟩
    · unfold call_tool
      rw [if_neg (by decide : ¬("fd_count" = "fd_search")),
        if_neg (by decide : ¬("fd_count" = "fd_search_content")),
        if_neg (by decide : ¬("fd_count" = "fd_exec")),
        if_neg (by decide : ¬("fd_count" = "fd_recent_files")), if_pos rfl,
        build_fd_command_some]
      dsimp only
      rcases henv ((([fd] ++ boolSeg (args.hidden.getD false) "--hidden"
          ++ boolSeg false "--no-ignore" ++ boolSeg false "--case-sensitive"
          ++ boolSeg false "--absolute-path" ++ optSeg args.type "--type"
          ++ optSeg args.extension "--extension" ++ depthSeg none
          ++ optSeg none "--exclude" ++ patSeg (args.pattern.getD "")
          ++ [args.path.getD "."])).map some) with ⟨m, hm⟩ | ⟨m, hm⟩ <;>
        rw [hm] <;> exact ⟨m, rfl⟩

/-- C4 witness: the text contract evaluated for a concrete fd_search
invocation whose process invocation raises. -/
theorem call_tool_text_contract_witness :
    (∃ texts, call_tool (some "fd") none (envConst (.exn "boom")) "fd_search"
      noArgs = .ok texts)
    ∧ ∃ m, call_tool (some "fd") none (envConst (.exn "boom")) "fd_search"
      noArgs = .ok ["Error: " ++ m] := by
  have h := call_tool_text_contract "fd" none (envConst (.exn "boom"))
    "fd_search" noArgs (fun hc => absurd hc (by decide))
    (fun hc => absurd hc (by decide))
  exact ⟨h.1, h.2 (fun cm => Or.inr ⟨"boom", rfl⟩) (Or.inl rfl)⟩

/-- C8 amended: with both binaries present, an empty discovery output yields
the fixed no-files text; search exit code 1 yields the no-matches message;
any exit code other than 0 and 1 yields "Error: " followed by the raw stderr
of the search tool; only the first max_results discovered files are passed to
the search command, and the truncation note is appended exactly when the
search exits 0 and the discovered file count exceeds max_results. -/
theorem content_search_behavior (FD_CMD : Option String) (rg : String)
    (env : ProcEnv) (sp fp path : String) (ext ft : Option String)
    (hid ni cs : Bool) (cl : Int) (maxr : Nat)
    (fdout fderr rout rerr : String) (frc rrc : Int)
    (hfd : env.run (content_fd_cmd FD_CMD fp path ext ft hid ni) =
      .ok fdout fderr frc)
    (hrg : env.run ((content_rg_cmd rg sp cs cl
        ++ (pySplitNL (pyStrip fdout)).take maxr).map some) =
      .ok rout rerr rrc) :
    (pyStrip fdout = "" →
      run_fd_with_content_search FD_CMD (some rg) env sp fp path ext ft hid ni
        cs cl maxr = "No files found matching the file pattern.")
    ∧ (pyStrip fdout ≠ "" → rrc = 1 →
      run_fd_with_content_search FD_CMD (some rg) env sp fp path ext ft hid ni
        cs cl maxr = "No content matches found in the files.")
    ∧ (pyStrip fdout ≠ "" → rrc ≠ 0 → rrc ≠ 1 →
      run_fd_with_content_search FD_CMD (some rg) env sp fp path ext ft hid ni
        cs cl maxr = "Error: " ++ rerr)
    ∧ (pyStrip fdout ≠ "" → rrc = 0 →
        (pySplitNL (pyStrip fdout)).length > maxr →
      run_fd_with_content_search FD_CMD (some rg) env sp fp path ext ft hid ni
        cs cl maxr =
        pyStrip rout ++ ("\n\n... searched " ++ toString maxr ++ " of "
          ++ toString (pySplitNL (pyStrip fdout)).length ++ " files (truncated)"))
    ∧ (pyStrip fdout ≠ "" → rrc = 0 →
        (pySplitNL (pyStrip fdout)).length ≤ maxr → pyStrip rout ≠ "" →
      run_fd_with_content_search FD_CMD (some rg) env sp fp path ext ft hid ni
        cs cl maxr = pyStrip rout) := by
  refine ⟨?_, ?_, ?_, ?_, ?_⟩
  · intro h
    unfold run_fd_with_content_search
    rw [hfd]
    dsimp only
    rw [if_pos h]
  · intro hne h1
    unfold run_fd_with_content_search
    rw [hfd]
    dsimp only
    rw [if_neg hne]
    rw [hrg]
    dsimp only
    rw [if_neg (by omega : ¬(rrc = 0)), if_pos h1]
  · intro hne h0 h1
    unfold run_fd_with_content_search
    rw [hfd]
    dsimp only
    rw [if_neg hne]
    rw [hrg]
    dsimp only
    rw [if_neg h0, if_neg h1]
  · intro hne h0 hgt
    unfold run_fd_with_content_search
    rw [hfd]
    dsimp only
    rw [if_neg hne]
    rw [hrg]
    dsimp only
    rw [if_pos h0]
    rw [if_pos hgt]
    have hnote : pyStrip rout ++ ("\n\n... searched " ++ toString maxr ++ " of "
        ++ toString (pySplitNL (pyStrip fdout)).length ++ " files (truncated)") ≠ "" := by
      apply str_append_ne_empty_right
      apply str_append_ne_empty_right
      intro hc
      exact absurd (congrArg String.data hc) (by decide)
    rw [if_neg hnote]
  · intro hne h0 hle hrne
    unfold run_fd_with_content_search
    rw [hfd]
    dsimp only
    rw [if_neg hne]
    rw [hrg]
    dsimp only
    rw [if_pos h0]
    rw [if_neg (not_lt.mpr hle), if_neg hrne]

/-- Environment for the C8 counterexample: discovery finds one file, the
content search exits with code 2 and diagnostic text. -/
def envCX : ProcEnv :=
  ⟨fun c => if c = content_fd_cmd (some "fd") "" "." none none false false
    then .ok "a" "" 0 else .ok "" "boom" 2, fun _ => .ok "" "" 0⟩

/-- Environment for the C8 counterexample: discovery finds two files, the
content search exits with code 1. -/
def envCX2 : ProcEnv :=
  ⟨fun c => if c = content_fd_cmd (some "fd") "" "." none none false false
    then .ok "a\nb" "" 0 else .ok "" "" 1, fun _ => .ok "" "" 0⟩

/-- C8 counterexample: on a search exit code other than 0 and 1 the result is
not the raw stderr but "Error: " followed by it; and when the discovered file
count exceeds max_results but the search exits 1, no truncation note is
appended (the result is the bare no-matches message). -/
theorem content_search_counterexample :
    run_fd_with_content_search (some "fd") (some "rg") envCX "pat" "" "."
        none none false false false 0 100 = "Error: boom"
    ∧ ("Error: boom" : String) ≠ "boom"
    ∧ run_fd_with_content_search (some "fd") (some "rg") envCX2 "pat" "" "."
        none none false false false 0 1 =
      "No content matches found in the files." := by
  refine ⟨?_, by decide, ?_⟩ <;> rfl

/-- Environment for the C8 witness: discovery finds one file and the content
search reports a hit. -/
def envCS : ProcEnv :=
  ⟨fun c => if c = content_fd_cmd (some "fd") "" "." none none false false
    then .ok "x" "" 0 else .ok "hit" "" 0, fun _ => .ok "" "" 0⟩

/-- C8 witness: the no-files branch and the successful-search branch
evaluated at concrete environments. -/
theorem content_search_behavior_witness :
    run_fd_with_content_search (some "fd") (some "rg") (envConst (.ok "" "" 0))
        "pat" "" "." none none false false false 0 100 =
      "No files found matching the file pattern."
    ∧ run_fd_with_content_search (some "fd") (some "rg") envCS "pat" "" "."
        none none false false false 0 100 = "hit" := by
  constructor
  · exact (content_search_behavior (some "fd") "rg" (envConst (.ok "" "" 0))
      "pat" "" "." none none false false false 0 100 "" "" "" "" 0 0 rfl rfl).1 rfl
  · have h := (content_search_behavior (some "fd") "rg" envCS
      "pat" "" "." none none false false false 0 100 "x" "" "hit" "" 0 0 rfl rfl).2.2.2.2
      (by decide) rfl (by decide) (by decide)
    rw [h]
    decide

/-- The list of per-file outputs collected by run_fd_exec, as a filterMap:
one entry per retained file whose substituted shell command produced stdout
or stderr. -/
def exec_results_spec (env : ProcEnv) (command : String)
    (files : List String) : List String :=
  files.filterMap (fun file =>
    match env.shell (pyReplaceBraces command file) with
    | .ok o e _ =>
      if o != "" || e != "" then some (file ++ ":\n" ++ o ++ e) else none
    | _ => none)

theorem exec_loop_ok (env : ProcEnv) (command : String) (files : List String)
    (hshell : ∀ s, ∃ o e r, env.shell s = .ok o e r) :
    exec_loop env command files = .ok (exec_results_spec env command files) := by
  induction files with
  | nil => rfl
  | cons file rest ih =>
    obtain ⟨o, e, r, hs⟩ := hshell (pyReplaceBraces command file)
    unfold exec_loop
    rw [hs, ih]
    unfold exec_results_spec
    rw [List.filterMap_cons, hs]
    dsimp only
    by_cases ho : (o != "" || e != "") = true
    · simp only [if_pos ho]
    · simp only [if_neg ho]

/-- C9: with files discovered and every per-file command succeeding,
run_fd_exec substitutes the placeholder in the command template by each file
path, keeps at most max_files files, collects output only for files whose
command produced stdout or stderr, reports the no-output text when nothing
was produced, and otherwise appends the limit-reached note exactly when the
number of retained files equals max_files. -/
theorem run_fd_exec_behavior (f : String) (env : ProcEnv)
    (command pattern path : String) (file_type extension : Option String)
    (hidden no_ignore : Bool) (max_files : Nat)
    (stdout stderr : String) (rc : Int)
    (hrun : ∀ c, env.run c = .ok stdout stderr rc)
    (hne : pyStrip stdout ≠ "")
    (hshell : ∀ s, ∃ o e r, env.shell s = .ok o e r) :
    run_fd_exec (some f) env command pattern path file_type extension hidden
        no_ignore max_files =
      .ok (if (exec_results_spec env command
            ((pySplitNL (pyStrip stdout)).take max_files)).isEmpty then
          "Command executed on "
            ++ toString ((pySplitNL (pyStrip stdout)).take max_files).length
            ++ " files (no output)"
        else if ((pySplitNL (pyStrip stdout)).take max_files).length
            = max_files then
          joinNN (exec_results_spec env command
              ((pySplitNL (pyStrip stdout)).take max_files))
            ++ ("\n\n... processed " ++ toString max_files
              ++ " files (limit reached)")
        else joinNN (exec_results_spec env command
          ((pySplitNL (pyStrip stdout)).take max_files))) := by
  unfold run_fd_exec
  rw [build_fd_command_some]
  dsimp only
  rw [hrun _]
  dsimp only
  rw [if_neg hne]
  rw [exec_loop_ok env command _ hshell]

/-- Environment for the C9 witness: discovery finds two files; every shell
command prints. -/
def envExecA : ProcEnv :=
  ⟨fun _ => .ok "f1\nf2" "" 0, fun _ => .ok "out" "" 0⟩

/-- Environment for the C9 witness: discovery finds two files; every shell
command is silent. -/
def envExecB : ProcEnv :=
  ⟨fun _ => .ok "f1\nf2" "" 0, fun _ => .ok "" "" 0⟩

/-- C9 witness: the three output shapes (plain concatenation, limit-reached
note when exactly max_files files were retained, no-output report) evaluated
at concrete environments. -/
theorem run_fd_exec_behavior_witness :
    run_fd_exec (some "fd") envExecA "wc" "" "." none none false false 10 =
      .ok "f1:\nout\n\nf2:\nout"
    ∧ run_fd_exec (some "fd") envExecA "wc" "" "." none none false false 2 =
      .ok "f1:\nout\n\nf2:\nout\n\n... processed 2 files (limit reached)"
    ∧ run_fd_exec (some "fd") envExecB "wc" "" "." none none false false 10 =
      .ok "Command executed on 2 files (no output)" := by
  refine ⟨?_, ?_, ?_⟩
  · have h := run_fd_exec_behavior "fd" envExecA "wc" "" "." none none false
      false 10 "f1\nf2" "" 0 (fun c => rfl) (by decide)
      (fun s => ⟨"out", "", 0, rfl⟩)
    rw [h]
    rfl
  · have h := run_fd_exec_behavior "fd" envExecA "wc" "" "." none none false
      false 2 "f1\nf2" "" 0 (fun c => rfl) (by decide)
      (fun s => ⟨"out", "", 0, rfl⟩)
    rw [h]
    rfl
  · have h := run_fd_exec_behavior "fd" envExecB "wc" "" "." none none false
      false 10 "f1\nf2" "" 0 (fun c => rfl) (by decide)
      (fun s => ⟨"", "", 0, rfl⟩)
    rw [h]
    rfl
